import Mathlib

/-!
Verification of the client-connector-lib core against its specification.

The definitions below are shallow embeddings of the Python source in
`src/cc_lib/`.  Pure functions become Lean functions; stateful methods
become explicit state-passing functions; external effects (HTTP exchanges,
token acquisition, JSON parsing of response bodies) are supplied through
explicit environment records describing the observable outcome of each
interaction.  The external `hashlib` digests (md5/sha1) are modelled as
function parameters, since only their observable output matters here.
-/

namespace CCLib

/-! ### Python `str.replace(old, "")` semantics

`Client.__parseDeviceID` (src/cc_lib/client/_client.py, lines 999-1006) is
`device_id.replace("{}-".format(prefix), "")`.  Python's `str.replace`
removes every non-overlapping occurrence of the pattern, scanning left to
right.  `pyRemoveAllF` mirrors that scan; the fuel argument (instantiated
with the length of the scanned string, an upper bound on the number of
steps) only makes the recursion structural. -/

/-- Boolean test that `p` is a leading segment of `s`. -/
def isPfx : List Char → List Char → Bool
  | [], _ => true
  | _ :: _, [] => false
  | a :: as, b :: bs => a == b && isPfx as bs

def pyRemoveAllF (fuel : Nat) (pat : List Char) (s : List Char) : List Char :=
  match fuel, s with
  | 0, s => s
  | _ + 1, [] => []
  | f + 1, c :: t =>
    if pat ≠ [] ∧ isPfx pat (c :: t) then
      pyRemoveAllF f pat (List.drop (pat.length - 1) t)
    else
      c :: pyRemoveAllF f pat t

/-- Python `s.replace(pat, "")` for a non-empty pattern `pat`. -/
def pyRemoveAll (pat s : List Char) : List Char :=
  pyRemoveAllF s.length pat s

/-- Whether `pat` occurs as a contiguous substring of `s`
(Python's `pat in s`). -/
def occursIn (pat : List Char) : List Char → Bool
  | [] => pat.isEmpty
  | c :: t => isPfx pat (c :: t) || occursIn pat t

/-- Embeds `Client.__prefixDeviceID` (src/cc_lib/client/_client.py,
lines 990-997): `"{}-{}".format(cc_conf.device.id_prefix, device_id)`. -/
def prefDeviceID (p d : String) : String :=
  p ++ "-" ++ d

/-- Embeds `Client.__parseDeviceID` (src/cc_lib/client/_client.py,
lines 999-1006): `device_id.replace("{}-".format(cc_conf.device.id_prefix), "")`. -/
def parseDeviceID (p s : String) : String :=
  ⟨pyRemoveAll (p.toList ++ ['-']) s.toList⟩

/-! #### Helper lemmas about the replace scan -/

theorem isPfx_self_append (l t : List Char) : isPfx l (l ++ t) = true := by
  induction l with
  | nil => rfl
  | cons a as ih => simp [isPfx, ih]

/-- `pyRemoveAllF` ignores its fuel as long as the fuel bounds the length. -/
theorem pyRemoveAllF_fuel (pat : List Char) :
    ∀ f g s, s.length ≤ f → s.length ≤ g →
      pyRemoveAllF f pat s = pyRemoveAllF g pat s := by
  intro f
  induction f using Nat.strong_induction_on with
  | _ f ih =>
    intro g s hf hg
    cases s with
    | nil => cases f <;> cases g <;> rfl
    | cons c t =>
      cases f with
      | zero => simp [List.length_cons] at hf
      | succ f' =>
        cases g with
        | zero => simp [List.length_cons] at hg
        | succ g' =>
          have hfl : t.length ≤ f' := by
            have : t.length + 1 ≤ f' + 1 := by simpa [List.length_cons] using hf
            omega
          have hgl : t.length ≤ g' := by
            have : t.length + 1 ≤ g' + 1 := by simpa [List.length_cons] using hg
            omega
          simp only [pyRemoveAllF]
          by_cases hm : pat ≠ [] ∧ isPfx pat (c :: t) = true
          · rw [if_pos hm, if_pos hm]
            have hdl : (List.drop (pat.length - 1) t).length ≤ f' := by
              have := List.length_drop (pat.length - 1) t
              omega
            have hdg : (List.drop (pat.length - 1) t).length ≤ g' := by
              have := List.length_drop (pat.length - 1) t
              omega
            exact ih f' (Nat.lt_succ_self f') g' _ hdl hdg
          · rw [if_neg hm, if_neg hm]
            rw [ih f' (Nat.lt_succ_self f') g' t hfl hgl]

/-- If the pattern does not occur in `s`, the scan leaves `s` unchanged. -/
theorem pyRemoveAllF_no_occur {pat : List Char} :
    ∀ (f : Nat) (s : List Char), s.length ≤ f → occursIn pat s = false →
      pyRemoveAllF f pat s = s := by
  intro f
  induction f with
  | zero => intro s _ _; rfl
  | succ f ih =>
    intro s hf hocc
    cases s with
    | nil => rfl
    | cons c t =>
      simp only [occursIn, Bool.or_eq_false_iff] at hocc
      simp only [pyRemoveAllF]
      have hnp : ¬ (pat ≠ [] ∧ isPfx pat (c :: t) = true) := by
        intro hand
        rw [hocc.1] at hand
        exact Bool.false_ne_true hand.2
      rw [if_neg hnp]
      have ht : t.length ≤ f := by
        have : t.length + 1 ≤ f + 1 := by simpa [List.length_cons] using hf
        omega
      rw [ih t ht hocc.2]

/-- Removing a non-empty pattern from `pat ++ s`, when `pat` does not occur
in `s`, consumes the leading `pat` and leaves `s` unchanged. -/
theorem pyRemoveAll_append_no_occur {pat s : List Char} (hne : pat ≠ [])
    (hocc : occursIn pat s = false) : pyRemoveAll pat (pat ++ s) = s := by
  unfold pyRemoveAll
  cases pat with
  | nil => exact absurd rfl hne
  | cons a as =>
    have hlen : ((a :: as) ++ s).length = as.length + s.length + 1 := by
      simp [List.length_append, List.length_cons]
    rw [hlen]
    simp only [List.cons_append, pyRemoveAllF]
    have hpre : isPfx (a :: as) (a :: (as ++ s)) = true := by
      simpa using isPfx_self_append (a :: as) s
    rw [if_pos ⟨by simp, hpre⟩]
    simp only [List.append_eq, List.length_cons, Nat.add_sub_cancel, List.drop_left]
    rw [pyRemoveAllF_fuel (a :: as) (as.length + s.length) s.length s
        (Nat.le_add_left _ _) (Nat.le_refl _)]
    exact pyRemoveAllF_no_occur s.length s (Nat.le_refl _) hocc

theorem mk_toList (s : String) : (⟨s.toList⟩ : String) = s := by
  cases s; rfl

theorem toList_prefDeviceID (p d : String) :
    (prefDeviceID p d).toList = (p.toList ++ ['-']) ++ d.toList := rfl

/-! ### Base64 and the device-ID prefix generation

`Client.__genDeviceIdPrefix` (src/cc_lib/client/_client.py, lines 90-102):
when `cc_conf.device.id_prefix` is unset it computes
`usr_time_str = md5(user).hexdigest() + str(time.time())` and sets the
prefix to `base64.urlsafe_b64encode(hashlib.md5(usr_time_str).digest())`
decoded and right-stripped of `'='`.  The md5/sha1 digests (external
`hashlib`) are abstracted as functions from the input string to the list
of digest bytes; `time.time()` enters only via its decimal string. -/

/-- Lowercase hex digit, as produced by `hexdigest()`. -/
def hexDigit (n : Nat) : Char :=
  "0123456789abcdef".toList.getD n '?'

/-- Hex string of a byte list (`hashlib`'s `hexdigest()` of a digest). -/
def bytesToHexL : List Nat → List Char
  | [] => []
  | b :: bs => hexDigit (b / 16) :: hexDigit (b % 16) :: bytesToHexL bs

def bytesToHex (bs : List Nat) : String :=
  ⟨bytesToHexL bs⟩

/-- The urlsafe base64 alphabet (`base64.urlsafe_b64encode`). -/
def b64c (n : Nat) : Char :=
  "ABCDEFGHIJKLMNOPQRSTUVWXYZabcdefghijklmnopqrstuvwxyz0123456789-_".toList.getD n '?'

/-- Standard base64 encoding of a byte list with urlsafe alphabet and
`'='` padding, as `base64.urlsafe_b64encode` produces. -/
def encB64 : List Nat → List Char
  | [] => []
  | [b1] => [b64c (b1 / 4), b64c (b1 % 4 * 16), '=', '=']
  | [b1, b2] => [b64c (b1 / 4), b64c (b1 % 4 * 16 + b2 / 16), b64c (b2 % 16 * 4), '=']
  | b1 :: b2 :: b3 :: rest =>
    b64c (b1 / 4) :: b64c (b1 % 4 * 16 + b2 / 16) :: b64c (b2 % 16 * 4 + b3 / 64) ::
      b64c (b3 % 64) :: encB64 rest

/-- Python `str.rstrip('=')`: drop trailing `'='` characters. -/
def rstripEq (s : List Char) : List Char :=
  (s.reverse.dropWhile (fun c => c = '=')).reverse

/-- Embeds `Client.__genDeviceIdPrefix` (src/cc_lib/client/_client.py,
lines 90-102).  `md5dig` abstracts `hashlib.md5(...).digest()` as the list
of digest bytes of the UTF-8 input; `timeStr` is `str(time.time())`.
When an `id_prefix` is already configured (truthy) it is kept unchanged. -/
def genDeviceIdPref (md5dig : String → List Nat) (idPref user timeStr : String) : String :=
  if idPref.isEmpty then
    ⟨rstripEq (encB64 (md5dig (bytesToHex (md5dig user) ++ timeStr)))⟩
  else idPref

/-- Modelled from the spec's words (section 3 / claim C2): the prefix is
claimed to be `base64url(sha1(md5(user) || unixTimeFloat))` with padding
stripped, `md5(user)` being the hex digest of the user name.  This is the
claimed formula, to be compared with `genDeviceIdPref` above. -/
def specClaimDeviceIdPref (sha1dig md5dig : String → List Nat)
    (user timeStr : String) : String :=
  ⟨rstripEq (encB64 (sha1dig (bytesToHex (md5dig user) ++ timeStr)))⟩

/-! #### Length facts about stripped base64 -/

theorem b64c_ne_pad (n : Nat) : b64c n ≠ '=' := by
  unfold b64c
  rcases Nat.lt_or_ge n ("ABCDEFGHIJKLMNOPQRSTUVWXYZabcdefghijklmnopqrstuvwxyz0123456789-_".toList.length) with h | h
  · rw [List.getD_eq_getElem _ _ h]
    intro hc
    have hm : '=' ∈ "ABCDEFGHIJKLMNOPQRSTUVWXYZabcdefghijklmnopqrstuvwxyz0123456789-_".toList := by
      rw [← hc]; exact List.getElem_mem _
    revert hm; decide
  · rw [List.getD_eq_default _ _ h]
    decide

theorem dropWhile_append_char (p : Char → Bool) (l₁ l₂ : List Char) :
    List.dropWhile p (l₁ ++ l₂) =
      if (List.dropWhile p l₁).isEmpty then List.dropWhile p l₂
      else List.dropWhile p l₁ ++ l₂ := by
  induction l₁ with
  | nil => simp
  | cons a as ih =>
    by_cases ha : p a = true
    · simpa [List.dropWhile, ha] using ih
    · simp [List.dropWhile, ha, List.isEmpty_cons]

/-- Prepending a non-pad character commutes with `rstripEq`. -/
theorem rstripEq_cons_ne_pad (x : Char) (t : List Char) (hx : x ≠ '=') :
    rstripEq (x :: t) = x :: rstripEq t := by
  unfold rstripEq
  rw [List.reverse_cons, dropWhile_append_char]
  by_cases h : (List.dropWhile (fun c => c = '=') t.reverse).isEmpty
  · simp only [h, if_true]
    simp only [List.isEmpty_iff] at h
    simp [List.dropWhile, hx, h]
  · simp only [h, if_false]
    simp

theorem rstripEq_two_pads : rstripEq ['=', '='] = [] := by decide

theorem rstripEq_one_pad : rstripEq ['='] = [] := by decide

/-- Length of the stripped base64 encoding: `(4 * n + 2) / 3` characters
for `n` input bytes (22 for an md5 digest, 27 for a sha1 digest). -/
theorem length_rstripEq_encB64 : ∀ bs : List Nat,
    (rstripEq (encB64 bs)).length = (4 * bs.length + 2) / 3 := by
  intro bs
  induction bs using encB64.induct with
  | case1 => decide
  | case2 b1 =>
    unfold encB64
    rw [rstripEq_cons_ne_pad _ _ (b64c_ne_pad _), rstripEq_cons_ne_pad _ _ (b64c_ne_pad _),
      rstripEq_two_pads]
    simp
  | case3 b1 b2 =>
    unfold encB64
    rw [rstripEq_cons_ne_pad _ _ (b64c_ne_pad _), rstripEq_cons_ne_pad _ _ (b64c_ne_pad _),
      rstripEq_cons_ne_pad _ _ (b64c_ne_pad _), rstripEq_one_pad]
    simp
  | case4 b1 b2 b3 rest ih =>
    unfold encB64
    rw [rstripEq_cons_ne_pad _ _ (b64c_ne_pad _), rstripEq_cons_ne_pad _ _ (b64c_ne_pad _),
      rstripEq_cons_ne_pad _ _ (b64c_ne_pad _), rstripEq_cons_ne_pad _ _ (b64c_ne_pad _)]
    simp only [List.length_cons, ih, List.length_cons]
    omega

/-! ### Reconnect backoff (`src/cc_lib/_util/__init__.py`, lines 89-115)

The Python code computes with floats; the embedding uses exact rational
arithmetic.  `int(log10(m))` for `m ≥ 1` is the number of decimal digits
of `m` minus one, embedded as the structurally recursive `intLog10`
(the fuel argument, instantiated with the number itself, bounds the
number of divisions by 10). -/

def intLog10F : Nat → Nat → Nat
  | 0, _ => 0
  | f + 1, n => if n < 10 then 0 else intLog10F f (n / 10) + 1

/-- Floor of the base-10 logarithm of a positive natural number. -/
def intLog10 (n : Nat) : Nat := intLog10F n n

/-- Embeds `calcNthTerm` (src/cc_lib/_util/__init__.py, lines 89-97):
`a_1 * r ** (n - 1)`. -/
def calcNthTerm (a1 r : ℚ) (n : Nat) : ℚ := a1 * r ^ (n - 1)

/-- Embeds `calcDuration` (src/cc_lib/_util/__init__.py, lines 100-115).
`magnitude` is `int(log10(ceil(base_value))) + 1`; for a positive
`base_value` the truncation `int(...)` equals the floor, i.e. `intLog10`
of the ceiling.  The final comparison mirrors
`if duration <= max_duration: return duration; return max_duration`. -/
def calcDuration (minDuration maxDuration : ℤ) (retryNum : Nat) (factor : ℚ) : ℤ :=
  let baseValue : ℚ := calcNthTerm (minDuration : ℚ) factor retryNum
  let magnitude : Nat := intLog10 (⌈baseValue⌉.toNat) + 1
  let duration : ℤ := ⌈baseValue / (10 : ℚ) ^ (magnitude - 1)⌉ * (10 : ℤ) ^ (magnitude - 1)
  if duration ≤ maxDuration then duration else maxDuration

/-- The fuel-based log is the floor log: `10 ^ intLog10F f n ≤ n` and
`n < 10 ^ (intLog10F f n + 1)` whenever `1 ≤ n ≤ f`. -/
theorem intLog10F_spec : ∀ (f n : Nat), 1 ≤ n → n ≤ f →
    10 ^ intLog10F f n ≤ n ∧ n < 10 ^ (intLog10F f n + 1) := by
  intro f
  induction f with
  | zero => intro n h1 h0; omega
  | succ f ih =>
    intro n h1 hf
    by_cases hn : n < 10
    · simp only [intLog10F, hn, if_true]
      constructor
      · simpa using h1
      · simpa using hn
    · simp only [intLog10F, hn, if_false]
      have hd1 : 1 ≤ n / 10 := Nat.one_le_div_iff (by omega) |>.mpr (by omega)
      have hdf : n / 10 ≤ f := by
        have : n / 10 < n := Nat.div_lt_self (by omega) (by omega)
        omega
      obtain ⟨hlo, hhi⟩ := ih (n / 10) hd1 hdf
      constructor
      · calc 10 ^ (intLog10F f (n / 10) + 1) = 10 ^ intLog10F f (n / 10) * 10 := by ring
        _ ≤ n / 10 * 10 := Nat.mul_le_mul_right 10 hlo
        _ ≤ n := Nat.div_mul_le_self n 10
      · have h10 : n < (n / 10 + 1) * 10 := by
          have := Nat.mod_lt n (show 0 < 10 by omega)
          have := Nat.div_add_mod n 10
          omega
        calc n < (n / 10 + 1) * 10 := h10
        _ ≤ 10 ^ (intLog10F f (n / 10) + 1) * 10 := by
            have : n / 10 + 1 ≤ 10 ^ (intLog10F f (n / 10) + 1) := hhi
            exact Nat.mul_le_mul_right 10 this
        _ = 10 ^ (intLog10F f (n / 10) + 1 + 1) := by ring

theorem intLog10_spec (n : Nat) (h1 : 1 ≤ n) :
    10 ^ intLog10 n ≤ n ∧ n < 10 ^ (intLog10 n + 1) :=
  intLog10F_spec n n h1 (Nat.le_refl n)

/-- Evaluation helper for `calcDuration` at concrete arguments. -/
theorem calcDuration_eval (minD maxD : ℤ) (n : Nat) (f B : ℚ) (C D : ℤ) (L : Nat)
    (hB : calcNthTerm (minD : ℚ) f n = B)
    (hC : ⌈B⌉ = C)
    (hL : intLog10 C.toNat = L)
    (hD : ⌈B / (10 : ℚ) ^ L⌉ = D) :
    calcDuration minD maxD n f = if D * 10 ^ L ≤ maxD then D * 10 ^ L else maxD := by
  unfold calcDuration
  simp only [hB, hC, hL, Nat.add_sub_cancel, hD]

/-! ### Canonical device hash (`Client.__hashDevices`)

`Client.__hashDevices` (src/cc_lib/client/_client.py, lines 979-988)
computes `sha1("{}{}".format(device.id, device.name))` hex per device,
sorts the hex strings ascending with Python's `list.sort()` (code-point
lexicographic string order), joins them with `"".join` and takes the sha1
hex of the concatenation.  The external `hashlib.sha1(...).hexdigest()` is
abstracted as a function `h : String → String`; `strLeB` is exactly
Python's `<=` on strings (lexicographic by code point). -/

/-- Lexicographic string comparison by code point (Python string order). -/
def strLeB : List Char → List Char → Bool
  | [], _ => true
  | _ :: _, [] => false
  | a :: as, b :: bs => if a = b then strLeB as bs else decide (a < b)

def strLe (a b : String) : Prop := strLeB a.toList b.toList = true

instance : DecidableRel strLe := fun _ _ => instDecidableEqBool _ _

theorem strLeB_total : ∀ x y : List Char, strLeB x y = true ∨ strLeB y x = true := by
  intro x
  induction x with
  | nil => intro y; exact Or.inl rfl
  | cons a as ih =>
    intro y
    cases y with
    | nil => exact Or.inr rfl
    | cons b bs =>
      by_cases hab : a = b
      · subst hab
        simp only [strLeB, if_pos rfl]
        exact ih bs
      · rcases lt_or_gt_of_ne hab with h | h
        · left; simp [strLeB, hab, h]
        · right
          have hba : b ≠ a := fun hc => hab hc.symm
          simp [strLeB, hba, h]

theorem strLeB_trans : ∀ x y z : List Char, strLeB x y = true → strLeB y z = true →
    strLeB x z = true := by
  intro x
  induction x with
  | nil => intro y z _ _; rfl
  | cons a as ih =>
    intro y z hxy hyz
    cases y with
    | nil => simp [strLeB] at hxy
    | cons b bs =>
      cases z with
      | nil => simp [strLeB] at hyz
      | cons c cs =>
        by_cases hab : a = b <;> by_cases hbc : b = c
        · subst hab; subst hbc
          simp only [strLeB, if_pos rfl] at hxy hyz ⊢
          exact ih bs cs hxy hyz
        · subst hab
          simp only [strLeB, if_pos rfl] at hxy
          simp [strLeB, hbc] at hyz
          simp [strLeB, hbc]
          exact hyz
        · subst hbc
          simp [strLeB, hab] at hxy
          simp [strLeB, hab]
          exact hxy
        · simp [strLeB, hab] at hxy
          simp [strLeB, hbc] at hyz
          have hac : a < c := lt_trans hxy hyz
          have hne : a ≠ c := ne_of_lt hac
          simp [strLeB, hne]
          exact hac

theorem strLeB_antisymm : ∀ x y : List Char, strLeB x y = true → strLeB y x = true →
    x = y := by
  intro x
  induction x with
  | nil =>
    intro y _ hyx
    cases y with
    | nil => rfl
    | cons b bs => simp [strLeB] at hyx
  | cons a as ih =>
    intro y hxy hyx
    cases y with
    | nil => simp [strLeB] at hxy
    | cons b bs =>
      by_cases hab : a = b
      · subst hab
        simp only [strLeB, if_pos rfl] at hxy hyx
        rw [ih bs hxy hyx]
      · have hba : b ≠ a := fun hc => hab hc.symm
        simp [strLeB, hab] at hxy
        simp [strLeB, hba] at hyx
        exact absurd hyx (lt_asymm hxy)

instance : IsTotal String strLe := ⟨fun a b => strLeB_total a.toList b.toList⟩

instance : IsTrans String strLe := ⟨fun a b c => strLeB_trans a.toList b.toList c.toList⟩

instance : IsAntisymm String strLe :=
  ⟨fun a b h1 h2 => by
    have h3 := strLeB_antisymm a.toList b.toList h1 h2
    cases a; cases b
    exact congrArg String.mk h3⟩

/-! ### Device descriptor (`src/cc_lib/types/_device.py`)

`Device.__new__` initialises `__id`, `__remote_id`, `__name` to the empty
string.  The `remote_id` setter (lines 56-61) raises `AttributeError` when
`self.__remote_id` is truthy (non-empty).  `Client.__addDevice` writes the
name-mangled attribute `_Device__remote_id` directly with `setattr`
(lines 333 and 337), bypassing the setter. -/

structure DeviceD where
  id : String
  name : String
  deviceTypeId : String
  remoteId : String
deriving DecidableEq

/-- The `remote_id` property setter: `AttributeError` (modelled as
`Except.error ()`) when the current value is non-empty. -/
def setRemoteId (d : DeviceD) (arg : String) : Except Unit DeviceD :=
  if d.remoteId ≠ "" then .error () else .ok {d with remoteId := arg}

/-- The direct write `setattr(device, '_Device__remote_id', value)` used in
`Client.__addDevice`; it bypasses the setter's guard. -/
def setRemoteIdMangled (d : DeviceD) (arg : String) : DeviceD :=
  {d with remoteId := arg}

/-- Canonical device hash, parametric in the sha1 hex digest `h`. -/
def hashDevices (h : String → String) (devices : List DeviceD) : String :=
  h (String.join ((devices.map (fun d => h (d.id ++ d.name))).insertionSort strLe))

theorem hashDevices_perm_eq (h : String → String) (l l' : List DeviceD) (hp : l.Perm l') :
    hashDevices h l = hashDevices h l' := by
  unfold hashDevices
  have hs : (l.map (fun d => h (d.id ++ d.name))).insertionSort strLe
      = (l'.map (fun d => h (d.id ++ d.name))).insertionSort strLe :=
    List.eq_of_perm_of_sorted
      (((List.perm_insertionSort strLe _).trans (hp.map _)).trans
        (List.perm_insertionSort strLe _).symm)
      (List.sorted_insertionSort strLe _)
      (List.sorted_insertionSort strLe _)
  rw [hs]

/-! ### The inbound command queue (`queue.Queue`)

`Client.__init__` (src/cc_lib/client/_client.py, line 78) creates
`self.__cmd_queue = queue.Queue()`, i.e. with the default `maxsize=0`.
Python's `queue.Queue` treats `maxsize <= 0` as an infinite queue;
`put_nowait` raises `queue.Full` only when `0 < maxsize <= len(items)`.
`Client.__handleCommand` (lines 611-641) parses the message and calls
`put_nowait`; parse failures (`JSONDecodeError`, `KeyError`,
`AttributeError`) and `queue.Full` are logged and the command dropped.
A message is modelled as `Option α`: `none` for a message whose URI/JSON
parsing fails, `some c` for a successfully parsed command. -/

structure PyQueue (α : Type) where
  maxsize : ℤ
  items : List α

/-- Python `Queue.put_nowait`: the `Bool` result tells whether the item
was enqueued (`false` = `queue.Full` was raised). -/
def putNowait (q : PyQueue α) (a : α) : PyQueue α × Bool :=
  if 0 < q.maxsize ∧ q.maxsize ≤ (q.items.length : ℤ) then (q, false)
  else ({q with items := q.items ++ [a]}, true)

/-- `Client.__handleCommand` as a queue transition: a parse failure or a
full queue leaves the queue unchanged (the command is dropped). -/
def handleCommand (q : PyQueue α) (m : Option α) : PyQueue α :=
  match m with
  | none => q
  | some c => (putNowait q c).1

/-- The command queue as constructed in `Client.__init__`:
`queue.Queue()` with default `maxsize=0` (unbounded). -/
def newCmdQueue : PyQueue α := ⟨0, []⟩

theorem handleCommand_fold_unbounded {α : Type} :
    ∀ (msgs : List (Option α)) (q : PyQueue α), q.maxsize ≤ 0 →
      (msgs.foldl handleCommand q).items = q.items ++ msgs.filterMap id ∧
      (msgs.foldl handleCommand q).maxsize = q.maxsize := by
  intro msgs
  induction msgs with
  | nil => intro q hq; simp
  | cons m ms ih =>
    intro q hq
    cases m with
    | none =>
      have := ih q hq
      simpa [handleCommand, List.filterMap_cons] using this
    | some c =>
      have hfull : ¬ (0 < q.maxsize ∧ q.maxsize ≤ (q.items.length : ℤ)) := by
        intro hc; omega
      have hstep : handleCommand q (some c) = {q with items := q.items ++ [c]} := by
        simp [handleCommand, putNowait, hfull]
      have := ih {q with items := q.items ++ [c]} hq
      simp only [List.foldl_cons, hstep]
      simpa [List.filterMap_cons] using this

/-! ### Hub and device HTTP control-plane flows

State-passing embeddings of `Client.__initHub`, `Client.__syncHub`,
`Client.__addDevice` and `Client.__updateDevice`
(src/cc_lib/client/_client.py).  External interactions are supplied as an
environment record: the outcome of token acquisition, the HTTP status of
each exchange, and the parse result of each response body (`none` models
a `json.JSONDecodeError` or a missing key / `KeyError`).  Socket-level
errors (`SocketTimeout`, `URLError`) are not exercised by the claims and
are not part of the environments.  Configuration strings follow Python
truthiness: `None` is `Option.none`, and the empty string is also falsy. -/

/-- Python truthiness of an optional string config entry. -/
def truthyStr : Option String → Bool
  | none => false
  | some s => !s.isEmpty

/-- Observable client/configuration state touched by the hub flows. -/
structure ClientState where
  hubId : Option String
  hubName : Option String
  idPref : String
  hubInit : Bool
  syncLockHeld : Bool
  syncEventSet : Bool
  workers : List String
deriving DecidableEq

inductive HubErr
  | initFailed
  | notInitialized
  | notFound
  | syncFailed
  | syncDevice
deriving DecidableEq

inductive DevErr
  | addFailed
  | updateFailed
  | devNotFound
deriving DecidableEq

/-- Body of the hub PUT issued by `__syncHub`. -/
structure HubPutBody where
  id : Option String
  name : Option String
  hash : String
  deviceLocalIds : List String
deriving DecidableEq

/-- HTTP requests the modelled flows can issue, in issue order. -/
inductive HttpReq
  | postHub
  | headHub
  | getHub
  | putHub (body : HubPutBody)
  | getDevice
  | postDevice
  | putDevice
deriving DecidableEq

/-- Environment for `__initHub`: token outcome, the generated fallback hub
name (`"{}-{}".format(getpass.getuser(), utcnow)`), the POST status and
parsed `hub["id"]` of its body, and the HEAD status of the probe. -/
structure InitEnv where
  tokenOk : Bool
  genName : String
  createStatus : Nat
  createdHubId : Option (Option String)
  headStatus : Nat

/-- Embeds `Client.__initHub` (src/cc_lib/client/_client.py,
lines 104-173).  Returns the new state, the HTTP requests issued, and the
outcome.  `NoTokenError`, socket errors, `json.JSONDecodeError` and
`KeyError` all raise `HubInitializationError` in this flow. -/
def initHub (env : InitEnv) (s : ClientState) :
    ClientState × List HttpReq × Except HubErr Unit :=
  if ¬ env.tokenOk then (s, [], .error .initFailed)
  else if ¬ truthyStr s.hubId then
    let hubName := if truthyStr s.hubName then s.hubName.getD "" else env.genName
    if env.createStatus ≠ 200 then (s, [.postHub], .error .initFailed)
    else
      match env.createdHubId with
      | none => (s, [.postHub], .error .initFailed)
      | some hid =>
        ({s with hubId := hid,
                 hubName := if truthyStr s.hubName then s.hubName else some hubName,
                 hubInit := true}, [.postHub], .ok ())
  else
    if env.headStatus = 200 then ({s with hubInit := true}, [.headHub], .ok ())
    else if env.headStatus = 404 then
      ({s with hubId := none}, [.headHub], .error .notFound)
    else (s, [.headHub], .error .initFailed)

/-- Environment for `__syncHub`: token outcome, GET status, the parsed
`(hub["name"], hub["hash"])` of the GET body (`none` = decode/key error;
the hash field itself may be JSON `null`, hence `Option String`), and the
PUT status. -/
structure SyncEnv where
  tokenOk : Bool
  getStatus : Nat
  hubBody : Option (String × Option String)
  putStatus : Nat

/-- Embeds `Client.__syncHub` (src/cc_lib/client/_client.py,
lines 175-282).  The sync lock is acquired on entry and released on every
exit; the sync event is cleared after the init check and re-set on every
exit; pending workers are joined (cleared).  `h` abstracts the sha1 hex
digest used by `__hashDevices`. -/
def syncHub (h : String → String) (devices : List DeviceD) (env : SyncEnv)
    (s : ClientState) : ClientState × List HttpReq × Except HubErr Unit :=
  if ¬ s.hubInit then
    ({s with syncLockHeld := false}, [], .error .notInitialized)
  else
    let s1 : ClientState :=
      {s with syncLockHeld := true, syncEventSet := false, workers := []}
    let deviceIds := devices.map (fun d => prefDeviceID s.idPref d.id)
    let devicesHash := hashDevices h devices
    let finish := fun (st : ClientState) (reqs : List HttpReq)
        (r : Except HubErr Unit) =>
      ({st with syncEventSet := true, syncLockHeld := false}, reqs, r)
    if ¬ env.tokenOk then finish s1 [] (.error .syncFailed)
    else if env.getStatus = 200 then
      match env.hubBody with
      | none => finish s1 [.getHub] (.error .syncFailed)
      | some (remoteName, remoteHash) =>
        let s2 := if some remoteName ≠ s1.hubName
          then {s1 with hubName := some remoteName} else s1
        if remoteHash ≠ some devicesHash then
          let putBody : HubPutBody := ⟨s2.hubId, s2.hubName, devicesHash, deviceIds⟩
          if env.putStatus = 400 then
            finish s2 [.getHub, .putHub putBody] (.error .syncDevice)
          else if env.putStatus = 404 then
            finish {s2 with hubId := none} [.getHub, .putHub putBody] (.error .notFound)
          else if env.putStatus ≠ 200 then
            finish s2 [.getHub, .putHub putBody] (.error .syncFailed)
          else finish s2 [.getHub, .putHub putBody] (.ok ())
        else finish s2 [.getHub] (.ok ())
    else if env.getStatus = 404 then
      finish {s1 with hubId := none} [.getHub] (.error .notFound)
    else finish s1 [.getHub] (.error .syncFailed)

/-- Environment for `__addDevice` / `__updateDevice`: token outcome, probe
GET status and parsed `device_atr["id"]` of its body, POST status and
parsed body id, and the PUT status of a dispatched update. -/
structure AddEnv where
  tokenOk : Bool
  probeStatus : Nat
  probeBodyId : Option String
  createStatus : Nat
  createBodyId : Option String
  putStatus : Nat

/-- Embeds `Client.__updateDevice` (src/cc_lib/client/_client.py,
lines 392-431): PUT by prefixed local id; 200 ok, 404 `DeviceNotFoundError`,
otherwise `DeviceUpdateError`. -/
def updateDevice (env : AddEnv) (_d : DeviceD) : List HttpReq × Except DevErr Unit :=
  if ¬ env.tokenOk then ([], .error .updateFailed)
  else if env.putStatus = 200 then ([.putDevice], .ok ())
  else if env.putStatus = 404 then ([.putDevice], .error .devNotFound)
  else ([.putDevice], .error .updateFailed)

/-- Embeds `Client.__addDevice` (src/cc_lib/client/_client.py,
lines 284-351).  Probe GET by prefixed id; on 404, POST to create and on
200 record the remote id via the name-mangled write; on probe 200, record
the remote id and dispatch `__updateDevice`.  `json.JSONDecodeError` and
`KeyError` while reading a response body are logged as warnings only and
do not fail the flow (the parse result `none` leads to `.ok` with the
device unchanged).  Errors raised by the dispatched update propagate. -/
def addDevice (env : AddEnv) (d : DeviceD) :
    DeviceD × List HttpReq × Except DevErr Unit :=
  if ¬ env.tokenOk then (d, [], .error .addFailed)
  else if env.probeStatus = 404 then
    if env.createStatus ≠ 200 then (d, [.getDevice, .postDevice], .error .addFailed)
    else
      match env.createBodyId with
      | none => (d, [.getDevice, .postDevice], .ok ())
      | some rid => (setRemoteIdMangled d rid, [.getDevice, .postDevice], .ok ())
  else if env.probeStatus = 200 then
    match env.probeBodyId with
    | none => (d, [.getDevice], .ok ())
    | some rid =>
      let d2 := setRemoteIdMangled d rid
      let u := updateDevice env d2
      (d2, .getDevice :: u.1, u.2)
  else (d, [.getDevice], .error .addFailed)

/-! ## Claims -/

/-- C1, counterexample: the round-trip `parse(prefix(d)) == d` fails for
the device id `d = "P-x"` under prefix `"P"`: `str.replace` removes every
occurrence of `"P-"`, so `"P-P-x"` parses to `"x"`, not `"P-x"`. -/
theorem claim_C1_counterexample :
    parseDeviceID "P" (prefDeviceID "P" "P-x") = "x" ∧
    parseDeviceID "P" (prefDeviceID "P" "P-x") ≠ "P-x" := by
  constructor <;> decide

/-- C1 (amended): for every prefix `p` and device id `d` such that the
pattern `p ++ "-"` does not occur inside `d`, parsing the prefixed id
yields the original id: `__parseDeviceID(__prefixDeviceID(d)) == d`.
(As stated, for arbitrary `d`, the claim is false: `__parseDeviceID`
removes every occurrence of the pattern, not only the leading one.) -/
theorem claim_C1_amended (p d : String)
    (h : occursIn (p.toList ++ ['-']) d.toList = false) :
    parseDeviceID p (prefDeviceID p d) = d := by
  unfold parseDeviceID
  rw [toList_prefDeviceID, pyRemoveAll_append_no_occur (by simp) h]
  exact mk_toList d

/-- C1, witness for the amended theorem at `p = "P"`, `d = "x"`. -/
theorem claim_C1_witness :
    occursIn ("P".toList ++ ['-']) "x".toList = false ∧
    parseDeviceID "P" (prefDeviceID "P" "x") = "x" :=
  ⟨by decide, claim_C1_amended "P" "x" (by decide)⟩

/-- Dummy 16-byte digest standing in for `hashlib.md5(...).digest()`. -/
def dummyMd5 (_s : String) : List Nat := List.replicate 16 0

/-- Dummy 20-byte digest standing in for `hashlib.sha1(...).digest()`. -/
def dummySha1 (_s : String) : List Nat := List.replicate 20 0

/-- C2, counterexample: for digest functions of the documented md5/sha1
output sizes (16 resp. 20 bytes), the generated prefix differs from the
spec's formula `base64url(sha1(md5(user)||time))`: the code feeds the
inner string to `hashlib.md5`, not `hashlib.sha1`, giving a 22-character
prefix instead of 27. -/
theorem claim_C2_counterexample :
    genDeviceIdPref dummyMd5 "" "alice" "1700000000.0" ≠
      specClaimDeviceIdPref dummySha1 dummyMd5 "alice" "1700000000.0" := by
  decide

/-- C2 (amended): when no id_prefix is configured, the generated prefix is
`base64url(md5(md5hex(user) || unixTimeFloat))` with `'='` padding
stripped — the outer digest is MD5, not SHA-1.  Consequently, for any
digest functions with md5's 16-byte and sha1's 20-byte output, the
generated prefix has 22 characters while the spec's claimed formula gives
27, so the claim's equality cannot hold. -/
theorem claim_C2_amended (md5dig sha1dig : String → List Nat) (user timeStr : String)
    (hmd5 : ∀ s, (md5dig s).length = 16) (hsha1 : ∀ s, (sha1dig s).length = 20) :
    (genDeviceIdPref md5dig "" user timeStr).length = 22 ∧
    (specClaimDeviceIdPref sha1dig md5dig user timeStr).length = 27 ∧
    genDeviceIdPref md5dig "" user timeStr ≠
      specClaimDeviceIdPref sha1dig md5dig user timeStr := by
  have h22 : (genDeviceIdPref md5dig "" user timeStr).length = 22 := by
    show (rstripEq (encB64 (md5dig _))).length = 22
    rw [length_rstripEq_encB64, hmd5]
  have h27 : (specClaimDeviceIdPref sha1dig md5dig user timeStr).length = 27 := by
    show (rstripEq (encB64 (sha1dig _))).length = 27
    rw [length_rstripEq_encB64, hsha1]
  refine ⟨h22, h27, fun heq => ?_⟩
  rw [heq, h27] at h22
  exact absurd h22 (by decide)

/-- C2, witness for the amended theorem at the dummy digests. -/
theorem claim_C2_witness :
    (∀ s, (dummyMd5 s).length = 16) ∧ (∀ s, (dummySha1 s).length = 20) ∧
    (genDeviceIdPref dummyMd5 "" "alice" "1700000000.0").length = 22 ∧
    (specClaimDeviceIdPref dummySha1 dummyMd5 "alice" "1700000000.0").length = 27 :=
  ⟨fun s => by simp [dummyMd5], fun s => by simp [dummySha1],
    (claim_C2_amended dummyMd5 dummySha1 "alice" "1700000000.0"
      (fun s => by simp [dummyMd5]) (fun s => by simp [dummySha1])).1,
    (claim_C2_amended dummyMd5 dummySha1 "alice" "1700000000.0"
      (fun s => by simp [dummyMd5]) (fun s => by simp [dummySha1])).2.1⟩

/-- C3, counterexample: there is no capacity `C` such that, after `C + 1`
inbound commands with none consumed, the first `C` are kept and the
`(C+1)`-th is dropped — the queue is created with `maxsize=0`
(unbounded), so every command is enqueued. -/
theorem claim_C3_counterexample :
    ¬ ∃ C : Nat, 0 < C ∧ ∀ cmds : List Nat, cmds.length = C + 1 →
      ((cmds.map some).foldl handleCommand (newCmdQueue : PyQueue Nat)).items =
        cmds.take C := by
  rintro ⟨C, hC, hall⟩
  have h := hall (List.replicate (C + 1) 0) (by simp)
  have hfold := handleCommand_fold_unbounded
    ((List.replicate (C + 1) 0).map some) (newCmdQueue : PyQueue Nat) (by simp [newCmdQueue])
  rw [hfold.1] at h
  have hlen := congrArg List.length h
  simp [newCmdQueue, List.filterMap_map] at hlen

/-- C3 (amended): the inbound command queue is created unbounded
(`queue.Queue()` with the default `maxsize=0`), so `put_nowait` never
raises `queue.Full`: after any number of inbound commands with none
consumed, every well-formed command is enqueued in arrival order and none
is dropped for capacity (the `queue.Full` handler is unreachable).
Malformed messages (URI/JSON parse failures, modelled as `none`) are
still logged and dropped. -/
theorem claim_C3_amended (msgs : List (Option Nat)) :
    (newCmdQueue : PyQueue Nat).maxsize = 0 ∧
    (msgs.foldl handleCommand (newCmdQueue : PyQueue Nat)).items = msgs.filterMap id := by
  refine ⟨rfl, ?_⟩
  have hfold := handleCommand_fold_unbounded msgs (newCmdQueue : PyQueue Nat)
    (by simp [newCmdQueue])
  rw [hfold.1]
  simp [newCmdQueue]

/-- Environment for the C4 counterexample: probe GET returns 200 with a
body whose `"id"` parses to `"r2"`. -/
def c4Env : AddEnv := ⟨true, 200, some "r2", 200, none, 200⟩

/-- C4, counterexample: a device whose `remote_id` already holds the
non-empty value `"r1"` has it overwritten to `"r2"` by the `addDevice`
flow (probe 200), because `Client.__addDevice` writes the name-mangled
attribute directly with `setattr`, bypassing the setter's guard; the flow
completes successfully. -/
theorem claim_C4_counterexample :
    (addDevice c4Env ⟨"d1", "n", "t", "r1"⟩).1.remoteId = "r2" ∧
    (addDevice c4Env ⟨"d1", "n", "t", "r1"⟩).2.2 = .ok () ∧
    ("r1" : String) ≠ "r2" := by
  refine ⟨by decide, rfl, by decide⟩

/-- C4 (amended): the `remote_id` setter enforces set-at-most-once — an
assignment while the value is non-empty raises `AttributeError`, and an
assignment while it is empty succeeds — but the `addDevice` flow bypasses
the setter via the name-mangled `setattr` write and sets `remote_id` to
whatever id the platform response carries, even when a non-empty value
is already present. -/
theorem claim_C4_amended :
    (∀ (d : DeviceD) (a : String), d.remoteId ≠ "" → setRemoteId d a = .error ()) ∧
    (∀ (d : DeviceD) (a : String), d.remoteId = "" →
      setRemoteId d a = .ok {d with remoteId := a}) ∧
    (∀ (env : AddEnv) (d : DeviceD) (rid : String),
      env.tokenOk = true → env.probeStatus = 200 → env.probeBodyId = some rid →
      (addDevice env d).1.remoteId = rid) := by
  refine ⟨?_, ?_, ?_⟩
  · intro d a h; simp [setRemoteId, h]
  · intro d a h; simp [setRemoteId, h]
  · intro env d rid h1 h2 h3
    unfold addDevice
    simp [h1, h2, h3, setRemoteIdMangled]

/-- C4, witness for the amended theorem at concrete inputs. -/
theorem claim_C4_witness :
    setRemoteId ⟨"d", "n", "t", "r1"⟩ "x" = .error () ∧
    setRemoteId ⟨"d", "n", "t", ""⟩ "r1" = .ok ⟨"d", "n", "t", "r1"⟩ ∧
    (addDevice c4Env ⟨"d", "n", "t", ""⟩).1.remoteId = "r2" :=
  ⟨claim_C4_amended.1 ⟨"d", "n", "t", "r1"⟩ "x" (by decide),
   claim_C4_amended.2.1 ⟨"d", "n", "t", ""⟩ "r1" rfl,
   claim_C4_amended.2.2 c4Env ⟨"d", "n", "t", ""⟩ "r2" rfl rfl rfl⟩

/-- C5: for positive `min_duration`, positive `factor` and attempt
`n ≥ 1`, `calcDuration` returns
`min(max_duration, ceil(base / 10^(m-1)) * 10^(m-1))` where
`base = min_duration * factor^(n-1)` and `m` is the unique magnitude with
`10^(m-1) ≤ ceil(base) < 10^m`, i.e. `m = floor(log10(ceil(base))) + 1`.
(The Python code computes with floats; the embedding uses exact rational
arithmetic.) -/
theorem claim_C5 (minD maxD : ℤ) (factor : ℚ) (n : Nat)
    (_hn : 1 ≤ n) (hmin : 0 < minD) (hf : 0 < factor) :
    ∃ m : Nat, 1 ≤ m ∧
      (10 : ℤ) ^ (m - 1) ≤ ⌈calcNthTerm (minD : ℚ) factor n⌉ ∧
      ⌈calcNthTerm (minD : ℚ) factor n⌉ < (10 : ℤ) ^ m ∧
      calcDuration minD maxD n factor =
        min maxD (⌈calcNthTerm (minD : ℚ) factor n / (10 : ℚ) ^ (m - 1)⌉ *
          (10 : ℤ) ^ (m - 1)) := by
  have hB : (0 : ℚ) < calcNthTerm (minD : ℚ) factor n := by
    unfold calcNthTerm
    have h1 : (0 : ℚ) < (minD : ℚ) := by exact_mod_cast hmin
    exact mul_pos h1 (pow_pos hf _)
  have hcp : 0 < ⌈calcNthTerm (minD : ℚ) factor n⌉ := Int.ceil_pos.mpr hB
  have hcz : ((⌈calcNthTerm (minD : ℚ) factor n⌉.toNat : ℤ)) =
      ⌈calcNthTerm (minD : ℚ) factor n⌉ := Int.toNat_of_nonneg (le_of_lt hcp)
  have hc1 : 1 ≤ ⌈calcNthTerm (minD : ℚ) factor n⌉.toNat := by omega
  obtain ⟨hlo, hhi⟩ := intLog10_spec _ hc1
  refine ⟨intLog10 ⌈calcNthTerm (minD : ℚ) factor n⌉.toNat + 1, by omega, ?_, ?_, ?_⟩
  · rw [Nat.add_sub_cancel, ← hcz]
    exact_mod_cast hlo
  · rw [← hcz]
    exact_mod_cast hhi
  · unfold calcDuration
    simp only [Nat.add_sub_cancel]
    by_cases hle : ⌈calcNthTerm (↑minD) factor n /
        (10 : ℚ) ^ intLog10 ⌈calcNthTerm (↑minD) factor n⌉.toNat⌉ *
        (10 : ℤ) ^ intLog10 ⌈calcNthTerm (↑minD) factor n⌉.toNat ≤ maxD
    · rw [if_pos hle, min_eq_right hle]
    · rw [if_neg hle, min_eq_left (le_of_not_le hle)]

/-- C5, witness: the theorem applied at `min=30`, `max=600`,
`factor=17/10`, `n=4`, together with the full spec sequence for
`n = 1..6`: the computed durations are 30, 60, 90, 200, 300, 500. -/
theorem claim_C5_witness :
    ((0 : ℤ) < 30 ∧ (1 : Nat) ≤ 4 ∧ (0 : ℚ) < 17 / 10 ∧
      ∃ m : Nat, 1 ≤ m ∧
        (10 : ℤ) ^ (m - 1) ≤ ⌈calcNthTerm ((30 : ℤ) : ℚ) (17 / 10) 4⌉ ∧
        ⌈calcNthTerm ((30 : ℤ) : ℚ) (17 / 10) 4⌉ < (10 : ℤ) ^ m ∧
        calcDuration 30 600 4 (17 / 10) =
          min 600 (⌈calcNthTerm ((30 : ℤ) : ℚ) (17 / 10) 4 / (10 : ℚ) ^ (m - 1)⌉ *
            (10 : ℤ) ^ (m - 1))) ∧
    calcDuration 30 600 1 (17 / 10) = 30 ∧
    calcDuration 30 600 2 (17 / 10) = 60 ∧
    calcDuration 30 600 3 (17 / 10) = 90 ∧
    calcDuration 30 600 4 (17 / 10) = 200 ∧
    calcDuration 30 600 5 (17 / 10) = 300 ∧
    calcDuration 30 600 6 (17 / 10) = 500 := by
  refine ⟨⟨by norm_num, by norm_num, by norm_num,
    claim_C5 30 600 (17 / 10) 4 (by norm_num) (by norm_num) (by norm_num)⟩,
    ?_, ?_, ?_, ?_, ?_, ?_⟩
  · rw [calcDuration_eval 30 600 1 (17 / 10) 30 30 3 1
      (by norm_num [calcNthTerm]) (Int.ceil_eq_iff.mpr (by norm_num)) (by decide)
      (Int.ceil_eq_iff.mpr (by norm_num))]
    norm_num
  · rw [calcDuration_eval 30 600 2 (17 / 10) 51 51 6 1
      (by norm_num [calcNthTerm]) (Int.ceil_eq_iff.mpr (by norm_num)) (by decide)
      (Int.ceil_eq_iff.mpr (by norm_num))]
    norm_num
  · rw [calcDuration_eval 30 600 3 (17 / 10) (867 / 10) 87 9 1
      (by norm_num [calcNthTerm]) (Int.ceil_eq_iff.mpr (by norm_num)) (by decide)
      (Int.ceil_eq_iff.mpr (by norm_num))]
    norm_num
  · rw [calcDuration_eval 30 600 4 (17 / 10) (14739 / 100) 148 2 2
      (by norm_num [calcNthTerm]) (Int.ceil_eq_iff.mpr (by norm_num)) (by decide)
      (Int.ceil_eq_iff.mpr (by norm_num))]
    norm_num
  · rw [calcDuration_eval 30 600 5 (17 / 10) (250563 / 1000) 251 3 2
      (by norm_num [calcNthTerm]) (Int.ceil_eq_iff.mpr (by norm_num)) (by decide)
      (Int.ceil_eq_iff.mpr (by norm_num))]
    norm_num
  · rw [calcDuration_eval 30 600 6 (17 / 10) (4259571 / 10000) 426 5 2
      (by norm_num [calcNthTerm]) (Int.ceil_eq_iff.mpr (by norm_num)) (by decide)
      (Int.ceil_eq_iff.mpr (by norm_num))]
    norm_num

/-- C6: the device hash — per-device sha1 hex of `localId ++ name`, the
hex digests sorted ascending, concatenated, and hashed again — is
invariant under permutation of the device list: `hash(S) == hash(P(S))`
for every permutation `P` (for any digest function `h`). -/
theorem claim_C6 (h : String → String) (l l' : List DeviceD) (hp : l.Perm l') :
    hashDevices h l = hashDevices h l' :=
  hashDevices_perm_eq h l l' hp

/-- C6, witness: two concrete two-device lists that are permutations of
each other get the same hash (with the identity standing in for the
digest function). -/
theorem claim_C6_witness :
    List.Perm [(⟨"d1", "A", "t", ""⟩ : DeviceD), ⟨"d2", "B", "t", ""⟩]
      [⟨"d2", "B", "t", ""⟩, ⟨"d1", "A", "t", ""⟩] ∧
    hashDevices (fun s => s) [⟨"d1", "A", "t", ""⟩, ⟨"d2", "B", "t", ""⟩] =
      hashDevices (fun s => s) [⟨"d2", "B", "t", ""⟩, ⟨"d1", "A", "t", ""⟩] :=
  ⟨by decide, claim_C6 (fun s => s) _ _ (by decide)⟩

/-- C7: in the `addDevice` create flow, when every HTTP exchange returns a
success status (probe 404 then create 200, or probe 200) but the response
body fails JSON decoding or lacks the `"id"` key (parse result `none`),
the operation completes with `.ok` — and the device's `remote_id` is left
unchanged (not captured); in the probe-200 case no update is dispatched. -/
theorem claim_C7 :
    (∀ (env : AddEnv) (d : DeviceD), env.tokenOk = true → env.probeStatus = 404 →
      env.createStatus = 200 → env.createBodyId = none →
      addDevice env d = (d, [.getDevice, .postDevice], .ok ())) ∧
    (∀ (env : AddEnv) (d : DeviceD), env.tokenOk = true → env.probeStatus = 200 →
      env.probeBodyId = none →
      addDevice env d = (d, [.getDevice], .ok ())) := by
  constructor
  · intro env d h1 h2 h3 h4
    unfold addDevice
    simp [h1, h2, h3, h4]
  · intro env d h1 h2 h3
    unfold addDevice
    simp [h1, h2, h3]

/-- C7, witness: both branches at concrete environments. -/
theorem claim_C7_witness :
    addDevice ⟨true, 404, none, 200, none, 200⟩ ⟨"d1", "n", "t", ""⟩ =
      (⟨"d1", "n", "t", ""⟩, [.getDevice, .postDevice], .ok ()) ∧
    addDevice ⟨true, 200, none, 200, none, 200⟩ ⟨"d1", "n", "t", ""⟩ =
      (⟨"d1", "n", "t", ""⟩, [.getDevice], .ok ()) :=
  ⟨claim_C7.1 ⟨true, 404, none, 200, none, 200⟩ ⟨"d1", "n", "t", ""⟩ rfl rfl rfl rfl,
   claim_C7.2 ⟨true, 200, none, 200, none, 200⟩ ⟨"d1", "n", "t", ""⟩ rfl rfl rfl⟩

/-- C8: whenever `initHub`'s existence probe (HEAD), `syncHub`'s GET, or
`syncHub`'s PUT receives HTTP 404, the operation raises `HubNotFound` and
the locally held hub id is cleared (set to `None`), so a subsequent
`initHub` recreates the hub. -/
theorem claim_C8 :
    (∀ (env : InitEnv) (s : ClientState), env.tokenOk = true →
      truthyStr s.hubId = true → env.headStatus = 404 →
      (initHub env s).1.hubId = none ∧ (initHub env s).2.2 = .error .notFound) ∧
    (∀ (h : String → String) (devices : List DeviceD) (env : SyncEnv)
      (s : ClientState), s.hubInit = true → env.tokenOk = true →
      env.getStatus = 404 →
      (syncHub h devices env s).1.hubId = none ∧
      (syncHub h devices env s).2.2 = .error .notFound) ∧
    (∀ (h : String → String) (devices : List DeviceD) (env : SyncEnv)
      (s : ClientState) (rn : String) (rh : Option String),
      s.hubInit = true → env.tokenOk = true → env.getStatus = 200 →
      env.hubBody = some (rn, rh) → rh ≠ some (hashDevices h devices) →
      env.putStatus = 404 →
      (syncHub h devices env s).1.hubId = none ∧
      (syncHub h devices env s).2.2 = .error .notFound) := by
  refine ⟨?_, ?_, ?_⟩
  · intro env s h1 h2 h3
    unfold initHub
    simp [h1, h2, h3]
  · intro h devices env s h1 h2 h3
    unfold syncHub
    simp [h1, h2, h3]
  · intro h devices env s rn rh h1 h2 h3 h4 h5 h6
    unfold syncHub
    simp [h1, h2, h3, h4, h5, h6]

/-- C8, witness: all three 404 paths at concrete states/environments. -/
theorem claim_C8_witness :
    ((⟨true, "gen", 200, some (some "h1"), 404⟩ : InitEnv).tokenOk = true ∧
      truthyStr (some "h1") = true ∧
      (initHub ⟨true, "gen", 200, some (some "h1"), 404⟩
        ⟨some "h1", some "nm", "P", false, false, true, []⟩).1.hubId = none ∧
      (initHub ⟨true, "gen", 200, some (some "h1"), 404⟩
        ⟨some "h1", some "nm", "P", false, false, true, []⟩).2.2 = .error .notFound) ∧
    ((syncHub (fun s => s) [] ⟨true, 404, none, 200⟩
        ⟨some "h1", some "nm", "P", true, false, true, []⟩).1.hubId = none ∧
      (syncHub (fun s => s) [] ⟨true, 404, none, 200⟩
        ⟨some "h1", some "nm", "P", true, false, true, []⟩).2.2 = .error .notFound) ∧
    ((syncHub (fun s => s) [] ⟨true, 200, some ("nm", none), 404⟩
        ⟨some "h1", some "nm", "P", true, false, true, []⟩).1.hubId = none ∧
      (syncHub (fun s => s) [] ⟨true, 200, some ("nm", none), 404⟩
        ⟨some "h1", some "nm", "P", true, false, true, []⟩).2.2 = .error .notFound) :=
  ⟨⟨rfl, rfl,
    (claim_C8.1 ⟨true, "gen", 200, some (some "h1"), 404⟩
      ⟨some "h1", some "nm", "P", false, false, true, []⟩ rfl rfl rfl).1,
    (claim_C8.1 ⟨true, "gen", 200, some (some "h1"), 404⟩
      ⟨some "h1", some "nm", "P", false, false, true, []⟩ rfl rfl rfl).2⟩,
   claim_C8.2.1 (fun s => s) [] ⟨true, 404, none, 200⟩
     ⟨some "h1", some "nm", "P", true, false, true, []⟩ rfl rfl rfl,
   claim_C8.2.2 (fun s => s) [] ⟨true, 200, some ("nm", none), 404⟩
     ⟨some "h1", some "nm", "P", true, false, true, []⟩ "nm" none rfl rfl rfl rfl
     (by decide) rfl⟩

/-- C9: if `syncHub`'s GET returns 200 and the remote hash equals the
canonical hash of the supplied devices, no PUT is issued (the only
request is the GET) and the operation completes successfully; the remote
name is adopted locally (so the final local name is the remote name,
whether or not it differed), and the sync lock/event are restored. -/
theorem claim_C9 (h : String → String) (devices : List DeviceD) (env : SyncEnv)
    (s : ClientState) (rn : String)
    (hinit : s.hubInit = true) (htok : env.tokenOk = true)
    (hget : env.getStatus = 200)
    (hbody : env.hubBody = some (rn, some (hashDevices h devices))) :
    (syncHub h devices env s).2.2 = .ok () ∧
    (syncHub h devices env s).2.1 = [.getHub] ∧
    (syncHub h devices env s).1.hubName = some rn ∧
    (syncHub h devices env s).1.syncLockHeld = false ∧
    (syncHub h devices env s).1.syncEventSet = true := by
  unfold syncHub
  by_cases hname : some rn ≠ s.hubName
  · simp [hinit, htok, hget, hbody, hname]
  · simp only [not_not] at hname
    simp [hinit, htok, hget, hbody, hname]

/-- C9, witness: a concrete matching-hash sync with a differing remote
name. -/
theorem claim_C9_witness :
    (syncHub (fun s => s) [⟨"d1", "A", "t", ""⟩]
      ⟨true, 200, some ("remote", some (hashDevices (fun s => s) [⟨"d1", "A", "t", ""⟩])), 200⟩
      ⟨some "h1", some "local", "P", true, false, true, []⟩).2.2 = .ok () ∧
    (syncHub (fun s => s) [⟨"d1", "A", "t", ""⟩]
      ⟨true, 200, some ("remote", some (hashDevices (fun s => s) [⟨"d1", "A", "t", ""⟩])), 200⟩
      ⟨some "h1", some "local", "P", true, false, true, []⟩).2.1 = [.getHub] ∧
    (syncHub (fun s => s) [⟨"d1", "A", "t", ""⟩]
      ⟨true, 200, some ("remote", some (hashDevices (fun s => s) [⟨"d1", "A", "t", ""⟩])), 200⟩
      ⟨some "h1", some "local", "P", true, false, true, []⟩).1.hubName = some "remote" ∧
    (syncHub (fun s => s) [⟨"d1", "A", "t", ""⟩]
      ⟨true, 200, some ("remote", some (hashDevices (fun s => s) [⟨"d1", "A", "t", ""⟩])), 200⟩
      ⟨some "h1", some "local", "P", true, false, true, []⟩).1.syncLockHeld = false ∧
    (syncHub (fun s => s) [⟨"d1", "A", "t", ""⟩]
      ⟨true, 200, some ("remote", some (hashDevices (fun s => s) [⟨"d1", "A", "t", ""⟩])), 200⟩
      ⟨some "h1", some "local", "P", true, false, true, []⟩).1.syncEventSet = true :=
  claim_C9 (fun s => s) [⟨"d1", "A", "t", ""⟩]
    ⟨true, 200, some ("remote", some (hashDevices (fun s => s) [⟨"d1", "A", "t", ""⟩])), 200⟩
    ⟨some "h1", some "local", "P", true, false, true, []⟩ "remote" rfl rfl rfl rfl

/-- C10: calling `syncHub` before any successful `initHub`
(`hub_init = false`) raises `HubNotInitializedError` without issuing any
HTTP request, releases the hub-sync lock, and leaves the hub-sync event
as it was (set), as well as the rest of the state unchanged — so later
`addDevice` / `deleteDevice` / `syncHub` calls are not blocked. -/
theorem claim_C10 (h : String → String) (devices : List DeviceD) (env : SyncEnv)
    (s : ClientState) (hninit : s.hubInit = false) :
    syncHub h devices env s = ({s with syncLockHeld := false}, [], .error .notInitialized) ∧
    (syncHub h devices env s).2.1 = [] ∧
    (syncHub h devices env s).2.2 = .error .notInitialized ∧
    (syncHub h devices env s).1.syncLockHeld = false ∧
    (syncHub h devices env s).1.syncEventSet = s.syncEventSet ∧
    (syncHub h devices env s).1.hubId = s.hubId ∧
    (syncHub h devices env s).1.hubInit = false := by
  have hmain : syncHub h devices env s =
      ({s with syncLockHeld := false}, [], .error .notInitialized) := by
    unfold syncHub
    simp [hninit]
  refine ⟨hmain, ?_, ?_, ?_, ?_, ?_, ?_⟩ <;> simp [hmain, hninit]

/-- C10, witness: a concrete un-initialized state with the event set. -/
theorem claim_C10_witness :
    syncHub (fun s => s) [] ⟨true, 200, some ("nm", none), 200⟩
      ⟨some "h1", some "nm", "P", false, false, true, []⟩ =
      (⟨some "h1", some "nm", "P", false, false, true, []⟩, [], .error .notInitialized) ∧
    (syncHub (fun s => s) [] ⟨true, 200, some ("nm", none), 200⟩
      ⟨some "h1", some "nm", "P", false, false, true, []⟩).1.syncEventSet = true :=
  ⟨(claim_C10 (fun s => s) [] ⟨true, 200, some ("nm", none), 200⟩
      ⟨some "h1", some "nm", "P", false, false, true, []⟩ rfl).1,
   (claim_C10 (fun s => s) [] ⟨true, 200, some ("nm", none), 200⟩
      ⟨some "h1", some "nm", "P", false, false, true, []⟩ rfl).2.2.2.2.1⟩

end CCLib
